import Mathlib

/-!
Verification development for the greenspaces-integration-ODH repository.

The definitions below are a shallow embedding of the adaptive viewport
data-loading and caching engine: the zoom-dependent query policy
(SpatialQueryUtils.js), the WKT geometry decoder and Douglas-Peucker
simplifier (ViewportDataLoader.js), the TileCache TTL logic (TileCache.js),
the paginated fetcher with its retry loop, the in-flight request table of
the loader, and the request-sequence guard of the rendering component
(UrbanGreenMapV2.js).

Modelling conventions:
- JavaScript numbers (map zoom levels, coordinates, timestamps) are
  modelled as exact rationals or integers; all concrete values appearing
  in the claims are exactly representable.
- Distance comparisons inside Douglas-Peucker are encoded with squared
  distances (exact rationals), which is order-isomorphic to the source
  code comparison of square-root distances against a nonnegative
  tolerance.
- Asynchronous control flow is modelled by explicit state passing: each
  awaited continuation of the source becomes a function from the state
  observed at resumption time to the updated state plus the value the
  surrounding promise resolves with.
-/

namespace GreenSpaces

/-! ## Query Strategy Selector (SpatialQueryUtils.js) -/

/-- Geometry policy record returned by getGeometryStrategy:
includeFullGeometry and simplificationTolerance. -/
structure GeometryStrategy where
  includeFullGeometry : Bool
  simplificationTolerance : ℚ
  deriving Repr, DecidableEq

/-- Embeds getGeometryStrategy (SpatialQueryUtils.js lines 98-109):
zoom at most 11 drops full geometry with tolerance 0.001; at most 13 full
geometry with tolerance 0.0005; at most 15 tolerance 0.0001; beyond that
tolerance 0.00005. -/
def getGeometryStrategy (zoom : ℚ) : GeometryStrategy :=
  if zoom ≤ 11 then ⟨false, 1/1000⟩
  else if zoom ≤ 13 then ⟨true, 5/10000⟩
  else if zoom ≤ 15 then ⟨true, 1/10000⟩
  else ⟨true, 5/100000⟩

/-- Embeds getOptimalPageSize (SpatialQueryUtils.js lines 159-164):
page size 100 up to zoom 10, then 150 up to 13, 250 up to 15, else 400. -/
def getOptimalPageSize (zoom : ℚ) : Nat :=
  if zoom ≤ 10 then 100
  else if zoom ≤ 13 then 150
  else if zoom ≤ 15 then 250
  else 400

/-- Embeds getMaxPagesForZoom (SpatialQueryUtils.js lines 166-171):
max pages 1 up to zoom 11, then 2 up to 13, 3 up to 15, else 999. -/
def getMaxPagesForZoom (zoom : ℚ) : Nat :=
  if zoom ≤ 11 then 1
  else if zoom ≤ 13 then 2
  else if zoom ≤ 15 then 3
  else 999

/-- Embeds getLayersForZoom (SpatialQueryUtils.js lines 62-69).
A user-selected type is truthy in the source exactly when it is a
nonempty string; otherwise the zoom table applies. Category codes from
GREEN_CODE_TYPES: 1 = Vegetation, 2 = Furniture, 3 = Zones. -/
def getLayersForZoom (zoom : ℚ) (userSelectedType : Option String) : List String :=
  match userSelectedType with
  | some t =>
    if t ≠ "" then [t]
    else
      if zoom ≤ 10 then ["3"]
      else if zoom ≤ 12 then ["3", "1"]
      else if zoom ≤ 14 then ["3", "1", "2"]
      else ["1", "2", "3"]
  | none =>
      if zoom ≤ 10 then ["3"]
      else if zoom ≤ 12 then ["3", "1"]
      else if zoom ≤ 14 then ["3", "1", "2"]
      else ["1", "2", "3"]

/-- Modelled from the spec (section 4.2, claim C7 reading): a page-size
table stepped at the geometry-policy breakpoints (11, 13, 15) instead of
the breakpoints the source actually uses (10, 13, 15). Used only to
compare the spec sentence against getOptimalPageSize. -/
def pageSizeAtGeometryBreakpoints (zoom : ℚ) : Nat :=
  if zoom ≤ 11 then 100
  else if zoom ≤ 13 then 150
  else if zoom ≤ 15 then 250
  else 400

/-! ## Geometry Decoder (ViewportDataLoader.js)

String processing is modelled on lists of characters. The regular
expressions of the source are embedded as matching functions with the
same leftmost-match semantics on the input fragments the repository
handles. -/

/-- Splits a character list at every separator character, like the
JavaScript String.split used by parseCoordList. -/
def splitWhen (p : Char → Bool) : List Char → List (List Char)
  | [] => [[]]
  | c :: rest =>
    let r := splitWhen p rest
    if p c then [] :: r
    else
      match r with
      | [] => [[c]]
      | h :: t => (c :: h) :: t

/-- Whitespace trim on both ends, as String.prototype.trim. -/
def trimChars (cs : List Char) : List Char :=
  ((cs.dropWhile Char.isWhitespace).reverse.dropWhile Char.isWhitespace).reverse

/-- Value of a digit string. -/
def digitsToNat (cs : List Char) : Nat :=
  cs.foldl (fun acc c => acc * 10 + (c.toNat - 48)) 0

/-- Embeds the JavaScript Number conversion on the decimal-literal
fragment used by the repository: optional sign, integer and fractional
digits, optional exponent; the empty (or all-whitespace) string converts
to 0, anything else yields none, modelling NaN. -/
def jsNumberOfChars (cs : List Char) : Option ℚ :=
  let t := trimChars cs
  if t.isEmpty then some 0
  else
    let signAndRest : ℚ × List Char :=
      match t with
      | '-' :: rest => (-1, rest)
      | '+' :: rest => (1, rest)
      | _ => (1, t)
    let sign := signAndRest.1
    let t1 := signAndRest.2
    let intDigits := t1.takeWhile Char.isDigit
    let t2 := t1.dropWhile Char.isDigit
    let fracAndRest : List Char × List Char :=
      match t2 with
      | '.' :: rest => (rest.takeWhile Char.isDigit, rest.dropWhile Char.isDigit)
      | _ => ([], t2)
    let fracDigits := fracAndRest.1
    let t3 := fracAndRest.2
    if intDigits.isEmpty && fracDigits.isEmpty then none
    else
      let mant : ℚ :=
        (digitsToNat intDigits : ℚ) + (digitsToNat fracDigits : ℚ) / (10 : ℚ) ^ fracDigits.length
      match t3 with
      | [] => some (sign * mant)
      | e :: rest =>
        if e = 'e' ∨ e = 'E' then
          let expAndRest : Bool × List Char :=
            match rest with
            | '-' :: r => (true, r)
            | '+' :: r => (false, r)
            | _ => (false, rest)
          let eDigits := expAndRest.2.takeWhile Char.isDigit
          let rest2 := expAndRest.2.dropWhile Char.isDigit
          if eDigits.isEmpty || !rest2.isEmpty then none
          else
            let p : ℚ := (10 : ℚ) ^ digitsToNat eDigits
            some (sign * (if expAndRest.1 then mant / p else mant * p))
        else none

/-- Replaces the first comma with a dot, as the single-replacement
String.prototype.replace call inside the source toNumber helper. -/
def replaceFirstComma : List Char → List Char
  | [] => []
  | c :: rest => if c = ',' then '.' :: rest else c :: replaceFirstComma rest

/-- A JavaScript value fed to the source toNumber helper: a finite
number or a string; absent, null and undefined are modelled by wrapping
in Option. -/
inductive JsVal where
  | num (q : ℚ)
  | str (s : String)
  deriving Repr, DecidableEq

/-- Embeds the source toNumber helper (ViewportDataLoader.js lines
434-438): null and undefined map to none, numbers pass through, strings
are converted after replacing the first comma with a dot; non-finite
results are none. -/
def toNumber : Option JsVal → Option ℚ
  | none => none
  | some (.num q) => some q
  | some (.str s) => jsNumberOfChars (replaceFirstComma s.data)

/-- toNumber applied to a token captured by a geometry regular
expression (always a string in the source). -/
def toNumberOfToken (cs : List Char) : Option ℚ :=
  jsNumberOfChars (replaceFirstComma cs)

/-- Embeds reduceCoordinatePrecision on a single coordinate: the
JavaScript Math.round(c * 10^d) / 10^d with the default of 6 decimal
digits; Math.round is floor of the value plus one half. -/
def roundTo (decimals : Nat) (q : ℚ) : ℚ :=
  (((q * 10 ^ decimals + 1/2).floor : ℤ) : ℚ) / 10 ^ decimals

/-- Precision reduction at the default 6 decimals. -/
def roundCoord (q : ℚ) : ℚ := roundTo 6 q

/-- Precision reduction on a coordinate pair. -/
def roundPair (p : ℚ × ℚ) : ℚ × ℚ := (roundCoord p.1, roundCoord p.2)

/-- Precision reduction on a coordinate list (the source function
recurses through nested arrays; here one typed instance per level). -/
def roundRing (ring : List (ℚ × ℚ)) : List (ℚ × ℚ) := ring.map roundPair

/-- Precision reduction on a list of rings. -/
def roundRings (rings : List (List (ℚ × ℚ))) : List (List (ℚ × ℚ)) := rings.map roundRing

/-- Decoded geometry, as produced by parseWKT. -/
inductive Geometry where
  | point (c : ℚ × ℚ)
  | lineString (coords : List (ℚ × ℚ))
  | polygon (rings : List (List (ℚ × ℚ)))
  deriving Repr, DecidableEq

/-- Embeds perpendicularDistance (ViewportDataLoader.js lines 362-376),
encoded as the SQUARE of the source distance: the source compares
square-root distances against nonnegative bounds only, and squaring is
an order isomorphism on nonnegative values, so every comparison made by
the caller is preserved exactly. -/
def perpDistSq (p l1 l2 : ℚ × ℚ) : ℚ :=
  let dx := l2.1 - l1.1
  let dy := l2.2 - l1.2
  if dx = 0 ∧ dy = 0 then (p.1 - l1.1)^2 + (p.2 - l1.2)^2
  else (dy * p.1 - dx * p.2 + l2.1 * l1.2 - l2.2 * l1.1)^2 / (dx^2 + dy^2)

/-- The scan for the interior point of maximum perpendicular distance
from the chord (the for-loop of douglasPeucker): returns the index and
the squared maximum, starting from index 0 and squared distance 0. -/
def dpScan (points : List (ℚ × ℚ)) (first last : ℚ × ℚ) : Nat × ℚ :=
  points.enum.foldl (fun acc ip =>
    if 1 ≤ ip.1 ∧ ip.1 < points.length - 1 then
      let d := perpDistSq ip.2 first last
      if acc.2 < d then (ip.1, d) else acc
    else acc) (0, 0)

/-- Embeds douglasPeucker (ViewportDataLoader.js lines 337-360). The
fuel argument only bounds the recursion depth: it is seeded with the
length of the point list, and each recursive call receives a strictly
shorter list (the split index is an interior index whenever the squared
maximum exceeds the squared tolerance), so the fuel never runs out on
the seeded calls. Distance comparisons use the squared encoding of
perpDistSq; the source tolerances are all nonnegative. -/
def douglasPeuckerFuel (tolerance : ℚ) : Nat → List (ℚ × ℚ) → List (ℚ × ℚ)
  | fuel, points =>
    if points.length ≤ 2 then points
    else
      let first := points.headD (0, 0)
      let last := points.getLastD (0, 0)
      let m := dpScan points first last
      if tolerance ^ 2 < m.2 then
        match fuel with
        | 0 => points
        | fuel + 1 =>
          let left := douglasPeuckerFuel tolerance fuel (points.take (m.1 + 1))
          let right := douglasPeuckerFuel tolerance fuel (points.drop m.1)
          left.dropLast ++ right
      else [first, last]

/-- douglasPeucker at its natural fuel. -/
def douglasPeucker (points : List (ℚ × ℚ)) (tolerance : ℚ) : List (ℚ × ℚ) :=
  douglasPeuckerFuel tolerance points.length points

/-- Embeds simplifyPolygon (ViewportDataLoader.js lines 330-335): rings
shorter than 4 points pass through unchanged. -/
def simplifyPolygon (rings : List (List (ℚ × ℚ))) (tolerance : ℚ) : List (List (ℚ × ℚ)) :=
  rings.map (fun ring => if ring.length < 4 then ring else douglasPeucker ring tolerance)

/-- Embeds calculateCentroid: the arithmetic mean of the coordinate
list (always called on at least 3 points). -/
def calculateCentroid (coords : List (ℚ × ℚ)) : ℚ × ℚ :=
  ((coords.map Prod.fst).sum / coords.length, (coords.map Prod.snd).sum / coords.length)

/-- Case-insensitive prefix test for the geometry keywords. -/
def startsWithCI : List Char → List Char → Bool
  | [], _ => true
  | _ :: _, [] => false
  | p :: ps, c :: cs => (p.toLower == c.toLower) && startsWithCI ps cs

/-- Leftmost-match search: tries the matcher at every start position,
as an unanchored regular expression does. -/
def scanOption {α : Type} (p : List Char → Option α) : List Char → Option α
  | [] => p []
  | c :: cs =>
    match p (c :: cs) with
    | some a => some a
    | none => scanOption p cs

/-- Embeds the SRID-suffix strip of parseWKT: removes a trailing
case-insensitive SRID clause (a semicolon, the word SRID, an equals
sign, digits, optional trailing whitespace) when present. -/
def dropSridSuffix (cs : List Char) : List Char :=
  let r := cs.reverse.dropWhile Char.isWhitespace
  let digits := r.takeWhile Char.isDigit
  let r1 := r.dropWhile Char.isDigit
  match digits, r1 with
  | _ :: _, '=' :: d :: i :: rr :: ss :: ';' :: rest =>
    if d.toLower = 'd' ∧ i.toLower = 'i' ∧ rr.toLower = 'r' ∧ ss.toLower = 's' then
      rest.reverse
    else cs
  | _, _ => cs

/-- Character class of the point-coordinate tokens: digits, minus, dot
and comma. -/
def isNumTokenChar (c : Char) : Bool :=
  c.isDigit || c == '-' || c == '.' || c == ','

/-- Structural match of the POINT pattern at the current position:
the keyword, optional whitespace, an opening parenthesis, two
coordinate tokens separated by whitespace, a closing parenthesis.
Returns the two captured tokens. -/
def matchPointStruct (cs : List Char) : Option (List Char × List Char) :=
  if startsWithCI "point".data cs then
    let r1 := (cs.drop 5).dropWhile Char.isWhitespace
    match r1 with
    | '(' :: r2 =>
      let r3 := r2.dropWhile Char.isWhitespace
      let tok1 := r3.takeWhile isNumTokenChar
      let r4 := r3.dropWhile isNumTokenChar
      if tok1.isEmpty then none
      else
        match r4 with
        | c :: _ =>
          if c.isWhitespace then
            let r5 := r4.dropWhile Char.isWhitespace
            let tok2 := r5.takeWhile isNumTokenChar
            let r6 := r5.dropWhile isNumTokenChar
            if tok2.isEmpty then none
            else
              match r6.dropWhile Char.isWhitespace with
              | ')' :: _ => some (tok1, tok2)
              | _ => none
          else none
        | [] => none
    | _ => none
  else none

/-- Structural match of the end-anchored LINESTRING pattern at the
current position; returns the captured coordinate text between the
opening parenthesis and the final closing parenthesis. -/
def matchLineStruct (cs : List Char) : Option (List Char) :=
  if startsWithCI "linestring".data cs then
    match (cs.drop 10).dropWhile Char.isWhitespace with
    | '(' :: r2 =>
      let r3 := r2.dropWhile Char.isWhitespace
      match r3.reverse.dropWhile Char.isWhitespace with
      | ')' :: rcap => if rcap.isEmpty then none else some rcap.reverse
      | _ => none
    | _ => none
  else none

/-- Structural match of the end-anchored POLYGON pattern at the current
position; returns the text between the double opening parentheses and
the final double closing parentheses. -/
def matchPolyStruct (cs : List Char) : Option (List Char) :=
  if startsWithCI "polygon".data cs then
    match (cs.drop 7).dropWhile Char.isWhitespace with
    | '(' :: r2 =>
      match r2.dropWhile Char.isWhitespace with
      | '(' :: r4 =>
        match r4.reverse.dropWhile Char.isWhitespace with
        | ')' :: rev1 =>
          match rev1.dropWhile Char.isWhitespace with
          | ')' :: rcap => if rcap.isEmpty then none else some rcap.reverse
          | _ => none
        | _ => none
      | _ => none
    | _ => none
  else none

/-- Embeds parseCoordList (ViewportDataLoader.js lines 316-328): split
on commas, trim, drop empty parts, read the first two whitespace
separated tokens of each part as numbers, keep the pairs where both
parse; an empty result list is none. -/
def parseCoordList (cs : List Char) : Option (List (ℚ × ℚ)) :=
  let parts := ((splitWhen (· == ',') cs).map trimChars).filter (fun p => !p.isEmpty)
  let coords := parts.filterMap (fun part =>
    let toks := (splitWhen Char.isWhitespace part).filter (fun t => !t.isEmpty)
    match (toks[0]?).bind toNumberOfToken, (toks[1]?).bind toNumberOfToken with
    | some x, some y => some (x, y)
    | _, _ => none)
  if coords.isEmpty then none else some coords

/-- Embeds parseWKT (ViewportDataLoader.js lines 269-314): strip the
SRID suffix and trim, then try POINT, then LINESTRING (full geometry
only), then POLYGON (simplified ring at full geometry, centroid point
otherwise); every failure falls through to the next branch and a final
failure is none. -/
def parseWKT (wktString : String) (strategy : GeometryStrategy) : Option Geometry :=
  let cleaned := trimChars (dropSridSuffix wktString.data)
  let pointResult : Option Geometry :=
    match scanOption matchPointStruct cleaned with
    | some (t1, t2) =>
      match toNumberOfToken t1, toNumberOfToken t2 with
      | some lng, some lat => some (.point (roundPair (lng, lat)))
      | _, _ => none
    | none => none
  match pointResult with
  | some g => some g
  | none =>
    let lineResult : Option Geometry :=
      match scanOption matchLineStruct cleaned with
      | some cap =>
        if strategy.includeFullGeometry then
          match parseCoordList cap with
          | some coords =>
            if 2 ≤ coords.length then some (.lineString (roundRing coords)) else none
          | none => none
        else none
      | none => none
    match lineResult with
    | some g => some g
    | none =>
      match scanOption matchPolyStruct cleaned with
      | some cap =>
        match parseCoordList cap with
        | some coords =>
          if 3 ≤ coords.length then
            if strategy.includeFullGeometry then
              some (.polygon (roundRings (simplifyPolygon [coords] strategy.simplificationTolerance)))
            else some (.point (roundPair (calculateCentroid coords)))
          else none
        | none => none
      | none => none

/-- A geometry entry of a fetched record, as consumed by
extractGeometry: the Default flag, the WKT text (the source coalesces
the Geometry and geometry fields; the coalesced value is modelled), and
the per-entry Latitude and Longitude values. -/
structure RawGeo where
  defaultFlag : Bool
  wkt : Option String
  latitude : Option JsVal
  longitude : Option JsVal
  deriving Repr, DecidableEq

/-- A fetched record as consumed by extractGeometry: the Geo collection
(none models a missing or falsy Geo field; the source turns a map-shaped
Geo into its list of values, and entries may themselves be null) and the
record-level Latitude and Longitude values. -/
structure RawItem where
  geo : Option (List (Option RawGeo))
  latitude : Option JsVal
  longitude : Option JsVal
  deriving Repr, DecidableEq

/-- The geometry-entry choice of extractGeometry: the find call keeps
the first non-null entry whose Default flag is exactly true, and the
logical-or fallback takes the first entry of the collection. -/
def selectedGeo (geoArray : List (Option RawGeo)) : Option RawGeo :=
  let found := geoArray.find? (fun g =>
    match g with
    | some g0 => g0.defaultFlag
    | none => false)
  match found with
  | some g => g
  | none => geoArray.headD none

/-- The WKT step of extractGeometry: a truthy (nonempty) WKT string is
parsed; absence or emptiness contributes nothing. -/
def wktParsedGeometry (g : RawGeo) (strategy : GeometryStrategy) : Option Geometry :=
  match g.wkt with
  | some w => if w ≠ "" then parseWKT w strategy else none
  | none => none

/-- Embeds extractGeometry (ViewportDataLoader.js lines 242-267):
missing or empty Geo yields none; the entry with Default true is chosen,
else the first entry; a null chosen entry yields none; a truthy WKT
string that parses wins; otherwise the entry Latitude and Longitude
(falling back to the record-level fields via nullish coalescing) give a
precision-reduced point; else none. -/
def extractGeometry (item : RawItem) (strategy : GeometryStrategy) : Option Geometry :=
  match item.geo with
  | none => none
  | some geoArray =>
    if geoArray.isEmpty then none
    else
      match selectedGeo geoArray with
      | none => none
      | some g =>
        match wktParsedGeometry g strategy with
        | some geom => some geom
        | none =>
          match toNumber (g.latitude.orElse fun _ => item.latitude),
                toNumber (g.longitude.orElse fun _ => item.longitude) with
          | some la, some ln => some (.point (roundPair (ln, la)))
          | _, _ => none

/-! ## Tile Cache (TileCache.js)

The IndexedDB object store is modelled as a list of records keyed by
tile key; timestamps are integer milliseconds. Features are abstract
(type parameter F). The available-database path is modelled; an
unavailable database is a permanent no-op miss and carries no TTL
content. -/

/-- The time-to-live constant CACHE_DURATION: 7 days in milliseconds. -/
def CACHE_DURATION : ℤ := 7 * 24 * 60 * 60 * 1000

/-- A stored cache record: tile key, feature list and insertion
timestamp (the decomposed z, x, y, layerType and metadata fields of the
source record are not consulted by any read path and are omitted). -/
structure CacheRecord (F : Type) where
  key : String
  features : List F
  timestamp : ℤ
  deriving Repr, DecidableEq

/-- The object store contents. -/
abbrev TileStore (F : Type) : Type := List (CacheRecord F)

/-- Keyed lookup in the object store. -/
def storeFind {F : Type} (store : TileStore F) (key : String) : Option (CacheRecord F) :=
  store.find? (fun r => r.key == key)

/-- Keyed deletion in the object store. -/
def storeDelete {F : Type} (store : TileStore F) (key : String) : TileStore F :=
  store.filter (fun r => r.key != key)

/-- Embeds TileCache.set (TileCache.js lines 64-84): an IndexedDB put
replaces any record stored under the same key and stamps the current
time. -/
def tileCacheSet {F : Type} (store : TileStore F) (key : String) (features : List F)
    (now : ℤ) : TileStore F :=
  ⟨key, features, now⟩ :: storeDelete store key

/-- Embeds TileCache.get (TileCache.js lines 41-62): a missing record
resolves null; a record whose age strictly exceeds CACHE_DURATION is
deleted and resolves null; otherwise the stored features resolve.
Returns the resolved value and the store after the read. -/
def tileCacheGet {F : Type} (store : TileStore F) (key : String) (now : ℤ) :
    Option (List F) × TileStore F :=
  match storeFind store key with
  | none => (none, store)
  | some r =>
    if CACHE_DURATION < now - r.timestamp then (none, storeDelete store key)
    else (some r.features, store)

/-! ## Paginated Fetcher (ViewportDataLoader.js)

The remote origin is modelled as an oracle from attempt (or page)
number to outcome; cancellation is the observed state of the abort
signal at each suspension point. -/

/-- The source constant RETRY_DELAY in milliseconds. -/
def RETRY_DELAY : Nat := 1000

/-- The source constant MAX_RETRIES. -/
def MAX_RETRIES : Nat := 2

/-- Outcome of one fetch invocation inside fetchPageWithRetry: a
successful response carrying the extracted item list, a non-ok HTTP
status, a non-abort network failure, or an abort. -/
inductive HttpResult (I : Type) where
  | ok (items : List I)
  | status (code : Nat)
  | netError
  | abortError
  deriving Repr, DecidableEq

/-- The value a fetchPageWithRetry call settles with: a page result
object with its success flag and items, or a rethrown AbortError. -/
inductive PageResult (I : Type) where
  | result (success : Bool) (items : List I)
  | aborted
  deriving Repr, DecidableEq

/-- A fetchPageWithRetry run together with its observable effects: the
backoff delays waited and the number of fetch invocations made. -/
structure PageRun (I : Type) where
  outcome : PageResult I
  delays : List Nat
  attempts : Nat
  deriving Repr, DecidableEq

/-- Embeds fetchPageWithRetry (ViewportDataLoader.js lines 196-224).
The oracle maps the retry count of an attempt to that attempt's
outcome. A 404 status is an empty successful page; a 500 status with
retries remaining waits RETRY_DELAY times 2 to the retry count and
retries; every other failure (including every non-500 5xx status) is
caught and yields success false; an abort is rethrown. Fuel bounds the
recursion depth and is seeded above MAX_RETRIES, which the retry guard
never exceeds. -/
def fetchPageWithRetryFuel {I : Type} (oracle : Nat → HttpResult I) :
    Nat → Nat → PageRun I
  | fuel, retryCount =>
    match oracle retryCount with
    | .ok items => ⟨.result true items, [], 1⟩
    | .status code =>
      if code = 404 then ⟨.result true [], [], 1⟩
      else if code = 500 ∧ retryCount < MAX_RETRIES then
        match fuel with
        | 0 => ⟨.result false [], [], 1⟩
        | fuel + 1 =>
          let delay := RETRY_DELAY * 2 ^ retryCount
          let rest := fetchPageWithRetryFuel oracle fuel (retryCount + 1)
          ⟨rest.outcome, delay :: rest.delays, rest.attempts + 1⟩
      else ⟨.result false [], [], 1⟩
    | .netError => ⟨.result false [], [], 1⟩
    | .abortError => ⟨.aborted, [], 1⟩

/-- fetchPageWithRetry as invoked by the pagination loop: retry count 0
and sufficient fuel. -/
def fetchPageWithRetry {I : Type} (oracle : Nat → HttpResult I) : PageRun I :=
  fetchPageWithRetryFuel oracle (MAX_RETRIES + 1) 0

/-- Why the pagination loop of fetchViewportData stopped. -/
inductive StopReason where
  | budgetExhausted
  | shortPage
  | pageFailed
  | abortCaught
  deriving Repr, DecidableEq

/-- A pagination run: the features accumulated and returned, the page
numbers for which a page fetch was issued, and the stop cause. -/
structure FetchRun (F : Type) where
  features : List F
  pagesRequested : List Nat
  reason : StopReason
  deriving Repr, DecidableEq

/-- Embeds the pagination loop of fetchViewportData
(ViewportDataLoader.js lines 139-194). The page oracle gives the value
each page fetch settles with; abortedBefore gives the abort-signal
state observed at the top of each iteration; conv is the
itemToFeature conversion (records with undecodable geometry are
dropped by filterMap). The loop starts at page 1 and, in source order:
exits when the page number exceeds maxPages; throws (and catches,
returning the partial list) when the signal is aborted; stops keeping
partial data when a page fails; appends the converted features; stops
after a page shorter than the requested page size; otherwise continues
with the next page. Fuel bounds the recursion depth and is seeded with
maxPages, which the loop counter never exceeds. -/
def fetchViewportPagesFuel {I F : Type} (pageOutcome : Nat → PageResult I)
    (abortedBefore : Nat → Bool) (conv : I → Option F) (pagesize maxPages : Nat) :
    Nat → Nat → List F → FetchRun F
  | fuel, pageNumber, acc =>
    if maxPages < pageNumber then ⟨acc, [], .budgetExhausted⟩
    else if abortedBefore pageNumber then ⟨acc, [], .abortCaught⟩
    else
      match fuel with
      | 0 => ⟨acc, [], .budgetExhausted⟩
      | fuel + 1 =>
        match pageOutcome pageNumber with
        | .aborted => ⟨acc, [pageNumber], .abortCaught⟩
        | .result false _ => ⟨acc, [pageNumber], .pageFailed⟩
        | .result true items =>
          let acc2 := acc ++ items.filterMap conv
          if items.length = pagesize then
            let rest := fetchViewportPagesFuel pageOutcome abortedBefore conv
              pagesize maxPages fuel (pageNumber + 1) acc2
            ⟨rest.features, pageNumber :: rest.pagesRequested, rest.reason⟩
          else ⟨acc2, [pageNumber], .shortPage⟩

/-- fetchViewportData from its entry point: page 1, empty accumulator,
sufficient fuel. -/
def fetchViewportData {I F : Type} (pageOutcome : Nat → PageResult I)
    (abortedBefore : Nat → Bool) (conv : I → Option F) (pagesize maxPages : Nat) :
    FetchRun F :=
  fetchViewportPagesFuel pageOutcome abortedBefore conv pagesize maxPages maxPages 1 []

/-- Embeds the page-size choice of fetchViewportData line 140: a truthy
options.pagesize wins, otherwise the zoom table applies. -/
def effectivePageSize (optionsPagesize : Option Nat) (zoom : ℚ) : Nat :=
  match optionsPagesize with
  | some p => if p ≠ 0 then p else getOptimalPageSize zoom
  | none => getOptimalPageSize zoom

/-! ## Viewport Data Loader orchestration (ViewportDataLoader.js)

The in-flight request table maps tile keys to the identity of the
pending promise registered for that key; the single logical JavaScript
thread makes the continuation from the cache read down to the table
registration atomic, which is the code section modelled by
dispatchLayer. settleFetch models the continuation attached to the
fetch promise (then, catch, finally). -/

/-- Loader instance state: the tile cache store and the in-flight
request table activeRequests. -/
structure LoaderState (F : Type) where
  store : TileStore F
  active : List (String × Nat)
  deriving Repr, DecidableEq

/-- Lookup in the in-flight request table. -/
def activeLookup (active : List (String × Nat)) (key : String) : Option Nat :=
  (active.find? (fun e => e.1 == key)).map Prod.snd

/-- Unconditional removal from the in-flight request table. -/
def activeErase (active : List (String × Nat)) (key : String) : List (String × Nat) :=
  active.filter (fun e => e.1 != key)

/-- What the per-layer code path did for one tile key. -/
inductive LayerAction (F : Type) where
  | cacheHit (features : List F)
  | joined (p : Nat)
  | started (p : Nat)
  deriving Repr, DecidableEq

/-- Embeds the per-layer branch of loadViewportData
(ViewportDataLoader.js lines 69-116), from the point the awaited
TileCache.get has resolved with cachedFeatures: an array value is a
cache hit returned directly; else a key already present in
activeRequests is joined; else a new fetch promise (with fresh identity
newId) is started and registered. The branch runs to completion with no
intervening suspension, so it reads and writes the table atomically. -/
def dispatchLayer {F : Type} (st : LoaderState F) (key : String)
    (cachedFeatures : Option (List F)) (newId : Nat) : LayerAction F × LoaderState F :=
  match cachedFeatures with
  | some feats => (.cacheHit feats, st)
  | none =>
    match activeLookup st.active key with
    | some p => (.joined p, st)
    | none => (.started newId, { st with active := (key, newId) :: st.active })

/-- The value a tile fetch settles with: resolution with a feature
list, rejection with an ordinary error, or rejection with an
AbortError. -/
inductive FetchOutcome (F : Type) where
  | success (features : List F)
  | failure
  | abortError
  deriving Repr, DecidableEq

/-- The value the registered tile promise resolves with, from the then
and catch handlers of loadViewportData lines 86-110: a successful fetch
yields its features unless the owning call's signal was observed
aborted, in which case the empty list; both error paths yield the empty
list. -/
def settleResolvedValue {F : Type} : FetchOutcome F → Bool → List F
  | .success feats, aborted => if aborted then [] else feats
  | .failure, _ => []
  | .abortError, _ => []

/-- Embeds the settlement of a tile fetch (the then, catch and finally
handlers, ViewportDataLoader.js lines 85-113) against the loader state
observed when the handlers run: on success with the signal not aborted
the features are written to the tile cache; on success with the signal
aborted the cache write is skipped (the source comments this path with
the words: if aborted, do not cache partials); errors write nothing;
on every path the finally handler removes the key from activeRequests.
Returns the promise resolution value and the updated state. -/
def settleFetch {F : Type} (st : LoaderState F) (key : String) (outcome : FetchOutcome F)
    (signalAborted : Bool) (now : ℤ) : List F × LoaderState F :=
  let value := settleResolvedValue outcome signalAborted
  match outcome with
  | .success feats =>
    if signalAborted then (value, { st with active := activeErase st.active key })
    else
      (value, { store := tileCacheSet st.store key feats now,
                active := activeErase st.active key })
  | .failure => (value, { st with active := activeErase st.active key })
  | .abortError => (value, { st with active := activeErase st.active key })

/-- How one layer promise of a loadViewportData call completed: a cache
hit (returned directly, never consulting the abort signal), or a fetch
settlement with the signal state observed at that moment. -/
inductive LayerCompletion (F : Type) where
  | cacheHit (features : List F)
  | fetchSettled (outcome : FetchOutcome F) (signalAborted : Bool)
  deriving Repr, DecidableEq

/-- The value one layer promise resolves with. -/
def layerResolvedValue {F : Type} : LayerCompletion F → List F
  | .cacheHit feats => feats
  | .fetchSettled outcome aborted => settleResolvedValue outcome aborted

/-- The merged feature list a loadViewportData call returns to its
caller (lines 120-128): all layer results flattened. The source guards
with an array filter; every layer value in the model is a list. The
loader returns this value unconditionally — it holds no generation
counter. -/
def loadViewportResult {F : Type} (layers : List (LayerCompletion F)) : List F :=
  (layers.map layerResolvedValue).flatten

/-! ## Rendering component request sequencing (UrbanGreenMapV2.js)

The stale-result suppression lives in the component method
loadViewportData (UrbanGreenMapV2.js lines 585-607): each call takes a
fresh requestId from the instance counter and, after awaiting the
loader, drops the result when the counter has moved on. -/

/-- Component state: the request sequence counter and the layer data
slot the awaited features are written into (a single slot models
layerData for the current main type). -/
structure ComponentState (F : Type) where
  requestSeq : Nat
  layerData : Option (List F)
  deriving Repr, DecidableEq

/-- Embeds the start of a component-level load: requestId is the
pre-incremented instance counter. -/
def startLoad {F : Type} (st : ComponentState F) : Nat × ComponentState F :=
  (st.requestSeq + 1, { st with requestSeq := st.requestSeq + 1 })

/-- Embeds the completion of a component-level load: the awaited
features are dropped when the counter no longer equals the call's
requestId, else written to the layer data slot. -/
def completeLoad {F : Type} (requestId : Nat) (features : List F)
    (st : ComponentState F) : ComponentState F :=
  if requestId ≠ st.requestSeq then st else { st with layerData := some features }

/-! ## Helper lemmas on the keyed stores -/

/-- Insertion places the fresh record first, so a keyed lookup after
tileCacheSet finds it. -/
theorem storeFind_set_self {F : Type} (store : TileStore F) (key : String)
    (feats : List F) (now : ℤ) :
    storeFind (tileCacheSet store key feats now) key = some ⟨key, feats, now⟩ := by
  simp [storeFind, tileCacheSet, List.find?]

/-- Deletion removes every record with this key. -/
theorem storeFind_delete_self {F : Type} (store : TileStore F) (key : String) :
    storeFind (storeDelete store key) key = none := by
  simp only [storeFind, storeDelete]
  apply List.find?_eq_none.mpr
  intro r hr
  have h2 := (List.mem_filter.mp hr).2
  simp only [bne_iff_ne, ne_eq] at h2
  simp [h2]

/-- Erasure empties the in-flight table at the erased key. -/
theorem activeLookup_erase_self (active : List (String × Nat)) (key : String) :
    activeLookup (activeErase active key) key = none := by
  simp only [activeLookup, activeErase]
  have h : List.find? (fun e => e.1 == key) (active.filter (fun e => e.1 != key)) = none := by
    apply List.find?_eq_none.mpr
    intro e he
    have h2 := (List.mem_filter.mp he).2
    simp only [bne_iff_ne, ne_eq] at h2
    simp [h2]
  simp [h]

/-- A filter dropping one key commutes away under a lookup for a
different key. -/
theorem find?_filter_ne {α : Type} (l : List (String × α)) (key other : String)
    (h : other ≠ key) :
    List.find? (fun e => e.1 == other) (l.filter (fun e => e.1 != key)) =
      List.find? (fun e => e.1 == other) l := by
  induction l with
  | nil => rfl
  | cons e rest ih =>
    rw [List.filter_cons]
    by_cases hek : e.1 = key
    · rw [if_neg (by simp [hek])]
      have hf : (e.1 == other) = false := by
        simp only [beq_eq_false_iff_ne, ne_eq, hek]
        exact fun he => h he.symm
      rw [List.find?_cons]
      simp only [hf]
      exact ih
    · rw [if_pos (by simp [hek])]
      rw [List.find?_cons, List.find?_cons]
      by_cases heo : e.1 = other
      · simp [heo]
      · have hf : (e.1 == other) = false := by simp [heo]
        simp only [hf]
        exact ih

/-- Erasure keeps the table unchanged at every other key. -/
theorem activeLookup_erase_other (active : List (String × Nat)) (key other : String)
    (h : other ≠ key) :
    activeLookup (activeErase active key) other = activeLookup active other := by
  simp [activeLookup, activeErase, find?_filter_ne active key other h]

/-! ## Claim theorems -/

/-- C6. When the user has not chosen a category, the categories queried
per zoom are: zoom at most 10 only zones (code 3); above 10 and at most
12 zones and vegetation (3 then 1); above 12 and at most 14 all three
(3, 1, 2); above 14 all three in the order vegetation, furniture, zones
(1, 2, 3). The code names follow GREEN_CODE_TYPES: 1 Vegetation,
2 Furniture, 3 Zones. Concretely zoom 9 gives only zones, zoom 11.5
zones plus vegetation, zoom 16 the vegetation-furniture-zones order. -/
theorem zoom_category_selection (zoom : ℚ) :
    (zoom ≤ 10 → getLayersForZoom zoom none = ["3"]) ∧
    (10 < zoom → zoom ≤ 12 → getLayersForZoom zoom none = ["3", "1"]) ∧
    (12 < zoom → zoom ≤ 14 → getLayersForZoom zoom none = ["3", "1", "2"]) ∧
    (14 < zoom → getLayersForZoom zoom none = ["1", "2", "3"]) ∧
    getLayersForZoom 9 none = ["3"] ∧
    getLayersForZoom (23/2) none = ["3", "1"] ∧
    getLayersForZoom 16 none = ["1", "2", "3"] := by
  refine ⟨?_, ?_, ?_, ?_, ?_, ?_, ?_⟩
  · intro h1
    simp only [getLayersForZoom]
    rw [if_pos h1]
  · intro h1 h2
    simp only [getLayersForZoom]
    rw [if_neg (by linarith), if_pos h2]
  · intro h1 h2
    simp only [getLayersForZoom]
    rw [if_neg (by linarith), if_neg (by linarith), if_pos h2]
  · intro h1
    simp only [getLayersForZoom]
    rw [if_neg (by linarith), if_neg (by linarith), if_neg (by linarith)]
  · norm_num [getLayersForZoom]
  · norm_num [getLayersForZoom]
  · norm_num [getLayersForZoom]

/-- Witness for C6 at zooms 9, 11.5 and 16. -/
theorem zoom_category_selection_witness :
    getLayersForZoom 9 none = ["3"] ∧
    getLayersForZoom (23/2) none = ["3", "1"] ∧
    getLayersForZoom 16 none = ["1", "2", "3"] :=
  ⟨(zoom_category_selection 9).1 (by norm_num),
   (zoom_category_selection (23/2)).2.1 (by norm_num) (by norm_num),
   (zoom_category_selection 16).2.2.2.1 (by norm_num)⟩

/-- C7 counterexample. The page-size table does NOT step at the
geometry-policy breakpoints: its first break is at zoom 10, not 11. At
zoom 11 the source getOptimalPageSize gives 150 while a table stepped
like the geometry policy gives 100; moreover zooms 10 and 11 share one
geometry tier yet get different page sizes. -/
theorem pageSize_breakpoint_counterexample :
    getOptimalPageSize 11 = 150 ∧
    pageSizeAtGeometryBreakpoints 11 = 100 ∧
    getGeometryStrategy 11 = getGeometryStrategy 10 ∧
    getOptimalPageSize 10 = 100 ∧
    getOptimalPageSize 11 ≠ getOptimalPageSize 10 := by
  norm_num [getOptimalPageSize, pageSizeAtGeometryBreakpoints, getGeometryStrategy]

/-- C7 amended. Page size and max-page budget both increase
monotonically with zoom; the max-page budget steps exactly at the
geometry-policy breakpoints (it is constant on every geometry tier);
the page size steps at 10, 13 and 15, agreeing with the
geometry-aligned table everywhere except on the interval from just
above 10 up to 11. -/
theorem pageSize_maxPages_amended :
    (∀ z1 z2 : ℚ, z1 ≤ z2 → getOptimalPageSize z1 ≤ getOptimalPageSize z2) ∧
    (∀ z1 z2 : ℚ, z1 ≤ z2 → getMaxPagesForZoom z1 ≤ getMaxPagesForZoom z2) ∧
    (∀ z1 z2 : ℚ, getGeometryStrategy z1 = getGeometryStrategy z2 →
      getMaxPagesForZoom z1 = getMaxPagesForZoom z2) ∧
    (∀ z : ℚ, ¬(10 < z ∧ z ≤ 11) → getOptimalPageSize z = pageSizeAtGeometryBreakpoints z) := by
  refine ⟨?_, ?_, ?_, ?_⟩
  · intro z1 z2 h
    simp only [getOptimalPageSize]
    split_ifs <;> first | linarith | norm_num
  · intro z1 z2 h
    simp only [getMaxPagesForZoom]
    split_ifs <;> first | linarith | norm_num
  · intro z1 z2 h
    simp only [getGeometryStrategy] at h
    simp only [getMaxPagesForZoom]
    split_ifs at h ⊢ <;>
      first
        | rfl
        | (simp only [GeometryStrategy.mk.injEq] at h; norm_num at h)
  · intro z h
    simp only [getOptimalPageSize, pageSizeAtGeometryBreakpoints]
    split_ifs <;> first | rfl | (exfalso; push_neg at h; first | linarith | linarith [h (by linarith)])

/-- Witness for C7 amended at concrete zooms. -/
theorem pageSize_maxPages_amended_witness :
    getOptimalPageSize 9 ≤ getOptimalPageSize 14 ∧
    getMaxPagesForZoom 9 ≤ getMaxPagesForZoom 14 ∧
    getMaxPagesForZoom 12 = getMaxPagesForZoom 13 ∧
    getOptimalPageSize 12 = pageSizeAtGeometryBreakpoints 12 :=
  ⟨pageSize_maxPages_amended.1 9 14 (by norm_num),
   pageSize_maxPages_amended.2.1 9 14 (by norm_num),
   pageSize_maxPages_amended.2.2.1 12 13 (by norm_num [getGeometryStrategy]),
   pageSize_maxPages_amended.2.2.2 12 (by norm_num)⟩

/-- C9. A tile-cache read returns the stored features exactly while the
record's age does not exceed the 7-day CACHE_DURATION; once the age
strictly exceeds it, the read resolves null and deletes the record from
the store as part of the read. -/
theorem tileCache_ttl {F : Type} (store : TileStore F) (key : String) (feats : List F)
    (T now : ℤ) :
    (now - T ≤ CACHE_DURATION →
      tileCacheGet (tileCacheSet store key feats T) key now =
        (some feats, tileCacheSet store key feats T)) ∧
    (CACHE_DURATION < now - T →
      (tileCacheGet (tileCacheSet store key feats T) key now).1 = none ∧
      storeFind (tileCacheGet (tileCacheSet store key feats T) key now).2 key = none) := by
  constructor
  · intro h
    simp [tileCacheGet, storeFind_set_self, not_lt.mpr h]
  · intro h
    constructor
    · simp [tileCacheGet, storeFind_set_self, h]
    · simp only [tileCacheGet, storeFind_set_self, h, if_pos]
      exact storeFind_delete_self _ _

/-- Witness for C9: a record inserted at time 0 hits at exactly 7 days
of age and misses (with deletion) at 7 days plus 1 millisecond. -/
theorem tileCache_ttl_witness :
    tileCacheGet (tileCacheSet ([] : TileStore Nat) "urbangreen:v2:12:2182:1484:3" [7] 0)
        "urbangreen:v2:12:2182:1484:3" 604800000 =
      (some [7], tileCacheSet ([] : TileStore Nat) "urbangreen:v2:12:2182:1484:3" [7] 0) ∧
    (tileCacheGet (tileCacheSet ([] : TileStore Nat) "urbangreen:v2:12:2182:1484:3" [7] 0)
        "urbangreen:v2:12:2182:1484:3" 604800001).1 = none ∧
    storeFind (tileCacheGet (tileCacheSet ([] : TileStore Nat) "urbangreen:v2:12:2182:1484:3" [7] 0)
        "urbangreen:v2:12:2182:1484:3" 604800001).2 "urbangreen:v2:12:2182:1484:3" = none :=
  ⟨(tileCache_ttl [] _ [7] 0 604800000).1 (by norm_num [CACHE_DURATION]),
   ((tileCache_ttl [] _ [7] 0 604800001).2 (by norm_num [CACHE_DURATION])).1,
   ((tileCache_ttl [] _ [7] 0 604800001).2 (by norm_num [CACHE_DURATION])).2⟩

section RatKernelEval

attribute [local semireducible] Rat.mul Rat.inv Rat.add Rat.sub Rat.ofScientific

/-- C8. Decoding the WKT text POINT (11.87 45.40) yields a Point at
longitude 11.87 and latitude 45.4, and decoding
POLYGON((0 0,0 1,1 1,1 0,0 0)) under a policy with full geometry and
simplification tolerance 0 yields a Polygon whose single ring is the
unchanged closed 5-point ring; on this ring Douglas-Peucker at
tolerance 0 is the identity. -/
theorem wkt_geometry_roundTrip :
    parseWKT "POINT (11.87 45.40)" ⟨true, 0⟩ = some (.point (11.87, 45.4)) ∧
    parseWKT "POLYGON((0 0,0 1,1 1,1 0,0 0))" ⟨true, 0⟩ =
      some (.polygon [[(0, 0), (0, 1), (1, 1), (1, 0), (0, 0)]]) ∧
    douglasPeucker [(0, 0), (0, 1), (1, 1), (1, 0), (0, 0)] 0 =
      [(0, 0), (0, 1), (1, 1), (1, 0), (0, 0)] := by
  refine ⟨?_, ?_, ?_⟩ <;> decide

/-- C10 counterexample. A record with no Geo collection at all but with
numeric record-level Latitude and Longitude fields is skipped
(extractGeometry yields none), not converted to the fallback Point the
claim asserts: the latitude-longitude fallback is only reachable when
the record has a non-empty Geo collection. -/
theorem extractGeometry_missing_geo_counterexample :
    extractGeometry ⟨none, some (.num 45), some (.num 11)⟩ ⟨true, 0⟩ = none ∧
    toNumber (some (.num 45)) = some 45 ∧
    toNumber (some (.num 11)) = some 11 ∧
    extractGeometry ⟨none, some (.num 45), some (.num 11)⟩ ⟨true, 0⟩ ≠
      some (.point (roundPair (11, 45))) := by
  refine ⟨?_, ?_, ?_, ?_⟩ <;> decide

end RatKernelEval

/-- C10 amended. For a record whose Geo collection is present and
non-empty and selects an entry, when the WKT text is absent, empty or
fails to parse under the current policy, numeric Latitude and Longitude
values (the entry's fields, falling back to the record's) still yield a
precision-reduced Point instead of dropping the record; the record is
skipped only when that fallback also fails. -/
theorem extractGeometry_latlng_fallback (item : RawItem) (arr : List (Option RawGeo))
    (g : RawGeo) (strategy : GeometryStrategy)
    (hgeo : item.geo = some arr) (hne : arr.isEmpty = false)
    (hsel : selectedGeo arr = some g)
    (hwkt : ∀ w, g.wkt = some w → w = "" ∨ parseWKT w strategy = none) :
    (∀ la ln, toNumber (g.latitude.orElse fun _ => item.latitude) = some la →
      toNumber (g.longitude.orElse fun _ => item.longitude) = some ln →
      extractGeometry item strategy = some (.point (roundPair (ln, la)))) ∧
    ((toNumber (g.latitude.orElse fun _ => item.latitude) = none ∨
      toNumber (g.longitude.orElse fun _ => item.longitude) = none) →
      extractGeometry item strategy = none) := by
  have hparsed : wktParsedGeometry g strategy = none := by
    unfold wktParsedGeometry
    cases hw : g.wkt with
    | none => rfl
    | some w =>
      rcases hwkt w hw with h1 | h1
      · simp [h1]
      · by_cases hww : w = "" <;> simp [hww, h1]
  constructor
  · intro la ln hla hln
    simp only [extractGeometry, hgeo, hne, Bool.false_eq_true, if_false, hsel, hparsed,
      hla, hln]
  · intro hnone
    rcases hnone with h1 | h1
    · cases h2 : toNumber (g.longitude.orElse fun _ => item.longitude) <;>
        simp only [extractGeometry, hgeo, hne, Bool.false_eq_true, if_false, hsel, hparsed,
          h1, h2]
    · cases h2 : toNumber (g.latitude.orElse fun _ => item.latitude) <;>
        simp only [extractGeometry, hgeo, hne, Bool.false_eq_true, if_false, hsel, hparsed,
          h1, h2]

/-- Witness for C10 amended: an entry with no WKT but a numeric
latitude, with the longitude found on the record, gives the fallback
Point; an entry with no coordinates anywhere is skipped. -/
theorem extractGeometry_latlng_fallback_witness :
    extractGeometry ⟨some [some ⟨false, none, some (.num 45), none⟩], none, some (.num 11)⟩
        ⟨true, 0⟩ = some (.point (roundPair (11, 45))) ∧
    extractGeometry ⟨some [some ⟨false, none, none, none⟩], none, none⟩ ⟨true, 0⟩ = none :=
  ⟨(extractGeometry_latlng_fallback _ [some ⟨false, none, some (.num 45), none⟩]
      ⟨false, none, some (.num 45), none⟩ ⟨true, 0⟩ rfl rfl rfl
      (fun w hw => nomatch hw)).1 45 11 rfl rfl,
   (extractGeometry_latlng_fallback _ [some ⟨false, none, none, none⟩]
      ⟨false, none, none, none⟩ ⟨true, 0⟩ rfl rfl rfl
      (fun w hw => nomatch hw)).2 (Or.inl rfl)⟩

/-- C1 counterexample. The loader holds no generation counter: a
loadViewportData call superseded by a newer call (its abort signal
fired) still resolves with its merged feature list, and that list can
be non-empty — here a call whose first layer was a cache hit with one
feature and whose second layer's fetch settled after supersession
resolves with the cached feature, which its caller receives. -/
theorem loader_returns_superseded_result :
    loadViewportResult [LayerCompletion.cacheHit [1],
      LayerCompletion.fetchSettled (.success [2]) true] = ([1] : List Nat) ∧
    ([1] : List Nat) ≠ [] := by
  constructor <;> decide

/-- C1 amended. The stale-result discard is enforced one level up, in
the rendering component: each component-level load takes the
pre-incremented request counter as its id, and a load completing after
a newer load has begun (so its id differs from the counter) writes
nothing — its features are dropped — while the newest load's completion
writes its features to the layer data slot. -/
theorem component_stale_suppression {F : Type} (st0 : ComponentState F)
    (feats1 feats2 : List F) :
    completeLoad (startLoad st0).1 feats1 (startLoad (startLoad st0).2).2 =
      (startLoad (startLoad st0).2).2 ∧
    completeLoad (startLoad (startLoad st0).2).1 feats2 (startLoad (startLoad st0).2).2 =
      { (startLoad (startLoad st0).2).2 with layerData := some feats2 } ∧
    (∀ (rid : Nat) (st : ComponentState F), rid ≠ st.requestSeq →
      completeLoad rid feats1 st = st) := by
  refine ⟨?_, ?_, ?_⟩
  · simp only [startLoad, completeLoad]
    rw [if_pos (by omega)]
  · simp only [startLoad, completeLoad]
    rw [if_neg (by omega)]
  · intro rid st hr
    simp only [completeLoad]
    rw [if_pos hr]

/-- Witness for C1 amended: a completion whose request id 1 is older
than the counter 2 leaves the component state unchanged. -/
theorem component_stale_suppression_witness :
    completeLoad 1 [3] (⟨2, none⟩ : ComponentState Nat) = ⟨2, none⟩ :=
  (component_stale_suppression (⟨0, none⟩ : ComponentState Nat) [3] [4]).2.2 1 ⟨2, none⟩
    (by decide)

/-- C2 counterexample. A fetch resolving successfully after its owning
call was cancelled does NOT write its features to the tile cache: the
then handler returns the empty list before the cache write (the source
comments this with: if aborted, do not cache partials). Here the cache
stays empty — the claimed write so future loads benefit does not
happen. -/
theorem cancelled_fetch_cache_counterexample :
    settleFetch (⟨[], [("k", 0)]⟩ : LoaderState Nat) "k" (.success [5]) true 0 =
      ([], ⟨[], []⟩) ∧
    storeFind (settleFetch (⟨[], [("k", 0)]⟩ : LoaderState Nat) "k"
      (.success [5]) true 0).2.store "k" = none := by
  constructor <;> decide

/-- C2 amended. When the owning call's signal is observed aborted at
settlement, a successful fetch writes nothing to the cache and the
cancelled call's layer resolves to the empty list; the cache is written
(and the features resolved) exactly when the signal is not aborted at
settlement. In both cases the in-flight table entry is removed. -/
theorem cancelled_fetch_cache_policy {F : Type} (st : LoaderState F) (key : String)
    (feats : List F) (now : ℤ) :
    settleFetch st key (.success feats) true now =
      ([], { st with active := activeErase st.active key }) ∧
    settleFetch st key (.success feats) false now =
      (feats, { store := tileCacheSet st.store key feats now,
                active := activeErase st.active key }) := by
  constructor <;> rfl

/-- C3. Request coalescing on the in-flight table: a layer load whose
tile key is registered joins the pending promise (every joiner gets the
same promise identity) and leaves the table unchanged, so at most one
fetch is in flight per key; an unregistered key starts and registers
exactly one new fetch; a cache hit never touches the table; and every
settlement path — success, failure or abort, cancelled or not — removes
the key's entry while leaving other keys untouched. -/
theorem inflight_request_coalescing {F : Type} (st : LoaderState F) (key other : String)
    (fid newId n1 n2 : Nat) (feats : List F) :
    (activeLookup st.active key = some fid →
      dispatchLayer st key none n1 = (.joined fid, st) ∧
      dispatchLayer st key none n2 = (.joined fid, st)) ∧
    (activeLookup st.active key = none →
      dispatchLayer st key none newId =
        (.started newId, { st with active := (key, newId) :: st.active }) ∧
      activeLookup ((key, newId) :: st.active) key = some newId) ∧
    dispatchLayer st key (some feats) newId = (.cacheHit feats, st) ∧
    (∀ (outcome : FetchOutcome F) (aborted : Bool) (now : ℤ),
      activeLookup (settleFetch st key outcome aborted now).2.active key = none) ∧
    (∀ (outcome : FetchOutcome F) (aborted : Bool) (now : ℤ), other ≠ key →
      activeLookup (settleFetch st key outcome aborted now).2.active other =
        activeLookup st.active other) := by
  refine ⟨?_, ?_, rfl, ?_, ?_⟩
  · intro h
    constructor <;> simp [dispatchLayer, h]
  · intro h
    constructor
    · simp [dispatchLayer, h]
    · simp [activeLookup, List.find?]
  · intro outcome aborted now
    cases outcome <;> cases aborted <;>
      simp [settleFetch, settleResolvedValue, activeLookup_erase_self]
  · intro outcome aborted now h
    cases outcome <;> cases aborted <;>
      simp [settleFetch, settleResolvedValue, activeLookup_erase_other _ _ _ h]

/-- Witness for C3: with one registered key, a second load joins the
pending promise 7 without starting a fetch, and settlement empties the
table at that key. -/
theorem inflight_request_coalescing_witness :
    dispatchLayer (⟨[], [("k", 7)]⟩ : LoaderState Nat) "k" none 9 =
      (.joined 7, ⟨[], [("k", 7)]⟩) ∧
    activeLookup (settleFetch (⟨[], [("k", 7)]⟩ : LoaderState Nat) "k"
      (.success [1]) false 0).2.active "k" = none :=
  ⟨((inflight_request_coalescing (⟨[], [("k", 7)]⟩ : LoaderState Nat) "k" "x" 7 9 9 9
      []).1 (by decide)).1,
   (inflight_request_coalescing (⟨[], [("k", 7)]⟩ : LoaderState Nat) "k" "x" 7 9 9 9
      []).2.2.2.1 (.success [1]) false 0⟩

/-- C4 counterexample. Only HTTP status 500 is retried — not every 5xx
status: a page failing with 503 on every attempt is fetched exactly
once, with no backoff delays, and immediately becomes a failed page. -/
theorem http503_not_retried :
    fetchPageWithRetry (fun _ => (.status 503 : HttpResult Unit)) =
      ⟨.result false [], [], 1⟩ ∧
    (fetchPageWithRetry (fun _ => (.status 503 : HttpResult Unit))).delays ≠
      [1000, 2000] ∧
    (fetchPageWithRetry (fun _ => (.status 503 : HttpResult Unit))).attempts ≠ 3 := by
  refine ⟨?_, ?_, ?_⟩ <;> decide

/-- C4 amended. A page failing with HTTP status 500 (exactly) is
retried up to MAX_RETRIES = 2 times with exponential backoff delays of
1000 then 2000 milliseconds — three attempts in all — after which the
page is a failed page; a failed page stops pagination early for its
category while the features already gathered from earlier pages are
kept and returned. -/
theorem http500_retry_backoff :
    (∀ oracle : Nat → HttpResult Unit,
      oracle 0 = .status 500 → oracle 1 = .status 500 → oracle 2 = .status 500 →
      fetchPageWithRetry oracle = ⟨.result false [], [1000, 2000], 3⟩) ∧
    (∀ (I F : Type) (pageOutcome : Nat → PageResult I) (conv : I → Option F)
        (items1 items2 : List I) (pagesize k : Nat),
      pageOutcome 1 = .result true items1 → items1.length = pagesize →
      pageOutcome 2 = .result false items2 →
      fetchViewportData pageOutcome (fun _ => false) conv pagesize (k + 2) =
        ⟨items1.filterMap conv, [1, 2], .pageFailed⟩) := by
  constructor
  · intro oracle h0 h1 h2
    simp only [fetchPageWithRetry, fetchPageWithRetryFuel, h0, h1, h2, MAX_RETRIES,
      RETRY_DELAY]
    norm_num
  · intro I F pageOutcome conv items1 items2 pagesize k h1 hlen h2
    have step2 : fetchViewportPagesFuel pageOutcome (fun _ => false) conv pagesize
        (k + 2) (k + 1) 2 (items1.filterMap conv) =
        ⟨items1.filterMap conv, [2], .pageFailed⟩ := by
      rw [fetchViewportPagesFuel]
      rw [if_neg (by omega)]
      simp only [Bool.false_eq_true, if_false, h2]
    rw [fetchViewportData, fetchViewportPagesFuel]
    rw [if_neg (by omega)]
    simp only [Bool.false_eq_true, if_false, h1, List.nil_append, hlen, eq_self_iff_true,
      if_true, step2]

/-- Witness for C4 amended: an always-500 origin exhausts the two
retries with delays 1000 and 2000 and fails; a full first page followed
by a failed second page returns the first page's features. -/
theorem http500_retry_backoff_witness :
    fetchPageWithRetry (fun _ => (.status 500 : HttpResult Unit)) =
      ⟨.result false [], [1000, 2000], 3⟩ ∧
    fetchViewportData (fun p => if p = 1 then .result true [()] else .result false [])
      (fun _ => false) (fun _ => (some 0 : Option Nat)) 1 2 =
      ⟨[0], [1, 2], .pageFailed⟩ :=
  ⟨http500_retry_backoff.1 _ rfl rfl rfl,
   by
     have h := http500_retry_backoff.2 Unit Nat
       (fun p => if p = 1 then .result true [()] else .result false [])
       (fun _ => (some 0 : Option Nat)) [()] [] 1 0 rfl rfl rfl
     simpa using h⟩

/-- On a run whose pages all succeed and whose signal never fires, the
pagination loop can only stop on budget exhaustion or a short page. -/
theorem fetchViewportPages_success_reason {I F : Type} (pageOutcome : Nat → PageResult I)
    (conv : I → Option F) (pagesize maxPages : Nat)
    (hsucc : ∀ p, ∃ items, pageOutcome p = .result true items) :
    ∀ (fuel pageNumber : Nat) (acc : List F),
      (fetchViewportPagesFuel pageOutcome (fun _ => false) conv pagesize maxPages
        fuel pageNumber acc).reason = .budgetExhausted ∨
      (fetchViewportPagesFuel pageOutcome (fun _ => false) conv pagesize maxPages
        fuel pageNumber acc).reason = .shortPage := by
  intro fuel
  induction fuel with
  | zero =>
    intro pageNumber acc
    rw [fetchViewportPagesFuel]
    by_cases h : maxPages < pageNumber
    · rw [if_pos h]
      simp
    · rw [if_neg h]
      simp
  | succ fuel ih =>
    intro pageNumber acc
    rw [fetchViewportPagesFuel]
    by_cases h : maxPages < pageNumber
    · rw [if_pos h]
      simp
    · rw [if_neg h]
      simp only [Bool.false_eq_true, if_false]
      obtain ⟨items, he⟩ := hsucc pageNumber
      simp only [he]
      by_cases hl : items.length = pagesize
      · simp only [hl, eq_self_iff_true, if_true]
        exact ih (pageNumber + 1) (acc ++ items.filterMap conv)
      · rw [if_neg hl]
        right
        rfl

/-- C5. Pagination starts at page 1 and stops exactly at the listed
conditions: on an all-success run with the signal quiet, only budget
exhaustion or a short page can stop the loop; a fired cancellation
token stops it before requesting a page; and with page size 250, a
budget of at least 3 and page sizes 250, 250, 100, exactly the pages
1, 2 and 3 are requested — no fourth — stopping on the short page with
all three pages' features kept. -/
theorem pagination_stop_conditions :
    (∀ (I F : Type) (pageOutcome : Nat → PageResult I) (conv : I → Option F)
        (pagesize maxPages : Nat),
      (∀ p, ∃ items, pageOutcome p = .result true items) →
      (fetchViewportData pageOutcome (fun _ => false) conv pagesize maxPages).reason =
          .budgetExhausted ∨
      (fetchViewportData pageOutcome (fun _ => false) conv pagesize maxPages).reason =
          .shortPage) ∧
    (∀ (I F : Type) (pageOutcome : Nat → PageResult I) (signal : Nat → Bool)
        (conv : I → Option F) (pagesize k : Nat),
      signal 1 = true →
      fetchViewportData pageOutcome signal conv pagesize (k + 1) =
        ⟨[], [], .abortCaught⟩) ∧
    (∀ (I F : Type) (pageOutcome : Nat → PageResult I) (conv : I → Option F)
        (i1 i2 i3 : List I) (k : Nat),
      pageOutcome 1 = .result true i1 → i1.length = 250 →
      pageOutcome 2 = .result true i2 → i2.length = 250 →
      pageOutcome 3 = .result true i3 → i3.length = 100 →
      fetchViewportData pageOutcome (fun _ => false) conv 250 (k + 3) =
        ⟨(i1.filterMap conv ++ i2.filterMap conv) ++ i3.filterMap conv,
         [1, 2, 3], .shortPage⟩) := by
  refine ⟨?_, ?_, ?_⟩
  · intro I F pageOutcome conv pagesize maxPages hsucc
    exact fetchViewportPages_success_reason pageOutcome conv pagesize maxPages hsucc
      maxPages 1 []
  · intro I F pageOutcome signal conv pagesize k hs
    rw [fetchViewportData, fetchViewportPagesFuel]
    rw [if_neg (by omega), hs]
    simp
  · intro I F pageOutcome conv i1 i2 i3 k h1 hl1 h2 hl2 h3 hl3
    have s3 : fetchViewportPagesFuel pageOutcome (fun _ => false) conv 250 (k + 3)
        (k + 1) 3 (i1.filterMap conv ++ i2.filterMap conv) =
        ⟨(i1.filterMap conv ++ i2.filterMap conv) ++ i3.filterMap conv,
         [3], .shortPage⟩ := by
      rw [fetchViewportPagesFuel]
      rw [if_neg (by omega)]
      simp only [Bool.false_eq_true, if_false, h3, hl3]
      rw [if_neg (by omega)]
    have s2 : fetchViewportPagesFuel pageOutcome (fun _ => false) conv 250 (k + 3)
        (k + 2) 2 (i1.filterMap conv) =
        ⟨(i1.filterMap conv ++ i2.filterMap conv) ++ i3.filterMap conv,
         [2, 3], .shortPage⟩ := by
      rw [fetchViewportPagesFuel]
      rw [if_neg (by omega)]
      simp only [Bool.false_eq_true, if_false, h2, hl2, eq_self_iff_true, if_true, s3]
    rw [fetchViewportData, fetchViewportPagesFuel]
    rw [if_neg (by omega)]
    simp only [Bool.false_eq_true, if_false, h1, List.nil_append, hl1, eq_self_iff_true,
      if_true, s2]

set_option maxRecDepth 4000 in
/-- Witness for C5 at concrete runs: an all-success single-page-budget
run stops on the budget; a fired token aborts before page 1; pages of
sizes 250, 250, 100 at page size 250 and budget 3 request exactly pages
1, 2, 3. -/
theorem pagination_stop_conditions_witness :
    ((fetchViewportData (fun _ => (.result true [()] : PageResult Unit)) (fun _ => false)
        (fun _ => (some 0 : Option Nat)) 5 1).reason = .budgetExhausted ∨
     (fetchViewportData (fun _ => (.result true [()] : PageResult Unit)) (fun _ => false)
        (fun _ => (some 0 : Option Nat)) 5 1).reason = .shortPage) ∧
    fetchViewportData (fun _ => (.result true [()] : PageResult Unit)) (fun _ => true)
        (fun _ => (some 0 : Option Nat)) 5 1 = ⟨[], [], .abortCaught⟩ ∧
    fetchViewportData
        (fun p => if p = 3 then .result true (List.replicate 100 ())
                  else (.result true (List.replicate 250 ()) : PageResult Unit))
        (fun _ => false) (fun _ => (some 0 : Option Nat)) 250 3 =
      ⟨(((List.replicate 250 ()).filterMap (fun _ => (some 0 : Option Nat)) ++
          (List.replicate 250 ()).filterMap (fun _ => (some 0 : Option Nat))) ++
          (List.replicate 100 ()).filterMap (fun _ => (some 0 : Option Nat))),
       [1, 2, 3], .shortPage⟩ :=
  ⟨pagination_stop_conditions.1 Unit Nat _ _ 5 1 (fun p => ⟨[()], rfl⟩),
   pagination_stop_conditions.2.1 Unit Nat _ _ _ 5 0 rfl,
   pagination_stop_conditions.2.2 Unit Nat _ _
     (List.replicate 250 ()) (List.replicate 250 ()) (List.replicate 100 ()) 0
     rfl rfl rfl rfl rfl rfl⟩

end GreenSpaces
